import Mathlib

/-!
Verification of the `ClaudeClient` facade (`src/claude_client.py`).

The file shallowly embeds the data model and the five operations of the
facade: construction (`__init__`), `chat`, `chat_stream`,
`chat_with_history` and `get_available_models`.

Modelling conventions:
* A Python dict used as a request payload is an association list
  `List (String × Value)` whose insertion (`dictInsert`) follows Python
  dict semantics: an existing key is overwritten in place, a new key is
  appended.  A dict literal `d = \x7b k1: v1, ..., **kwargs \x7d` is
  `dictUpdate base kwargs`, so later (kwargs) entries win, exactly as in
  Python.  A real Python `**kwargs` dict has pairwise distinct keys; the
  theorems that need this carry a `Nodup` hypothesis on the key list.
* Python string truthiness (`if s:` / `a or b`) is `truthyOpt`:
  `None` and the empty string are falsy, every other string is truthy.
* The vendor library (`Anthropic`) is the external collaborator: a record
  holding the credential it was constructed with, a synchronous call
  `createFn` returning either an error or a response with content blocks,
  and a streaming call `streamFn` returning the finite fragment sequence
  the stream yields plus an optional error the stream raises after them.
* Exceptions are `Except PyError`; `response.content[0].text` on an empty
  content list is the `indexError` case.
* The generator body of `chat_stream` (a `with` block around a `for`/
  `yield` loop) is embedded as the event trace (`List StreamEvent`) it
  produces for a given consumption pattern: `none` means the caller
  iterates to exhaustion, `some k` means the caller closes the iterator
  after consuming `k` fragments.  The `with` statement releases the
  stream resource (`StreamEvent.release`) on every exit path, before a
  pending exception propagates.
-/

/-- A conversation turn: the Python dict `\x7b"role": r, "content": c\x7d`. -/
structure Turn where
  role : String
  content : String
  deriving DecidableEq, Repr

/-- A value stored in a request-parameter dict.  The facade never computes
with these values, it only routes them, so the Python float temperature is
carried as an opaque rational payload. -/
inductive Value where
  | s (v : String)
  | n (v : Nat)
  | q (v : ℚ)
  | b (v : Bool)
  | msgs (v : List Turn)
  deriving DecidableEq, Repr

/-- Python dict membership `k in d` for an association list. -/
def hasKey (d : List (String × Value)) (k : String) : Bool :=
  d.any (fun p => p.1 == k)

/-- Python dict assignment `d[k] = v`: overwrite in place if the key
exists, otherwise append. -/
def dictInsert (d : List (String × Value)) (k : String) (v : Value) :
    List (String × Value) :=
  if hasKey d k then d.map (fun p => if p.1 == k then (k, v) else p)
  else d ++ [(k, v)]

/-- Python dict merge `\x7b**d, **kvs\x7d`: entries of `kvs` are written over
`d` in order, so `kvs` wins on common keys. -/
def dictUpdate (d kvs : List (String × Value)) : List (String × Value) :=
  kvs.foldl (fun acc p => dictInsert acc p.1 p.2) d

/-- Python dict lookup `d[k]` (as an `Option`). -/
def dictGet (d : List (String × Value)) (k : String) : Option Value :=
  (d.find? (fun p => p.1 == k)).map Prod.snd

/-- Python truthiness of an `Optional[str]`: `None` and `""` are falsy. -/
def truthyOpt : Option String → Bool
  | none => false
  | some s => s != ""

/-- One content block of a vendor response; the facade reads only its
`text` field. -/
structure ContentBlock where
  text : String
  deriving DecidableEq, Repr

/-- A vendor response: an ordered list of content blocks. -/
structure Response where
  content : List ContentBlock
  deriving DecidableEq, Repr

/-- An exception as the facade can observe it: an arbitrary error raised
by the transport, or the `IndexError` from `response.content[0]` on an
empty content list. -/
inductive PyError where
  | transportError (msg : String)
  | indexError
  deriving DecidableEq, Repr

/-- Behaviour of one vendor streaming call: the finite sequence of text
fragments the stream yields, then optionally an error it raises. -/
structure StreamSpec where
  fragments : List String
  err : Option PyError
  deriving Repr

/-- The vendor client handle (`Anthropic(api_key=...)`): the credential it
was constructed with and its two capabilities. -/
structure Anthropic where
  api_key : String
  createFn : List (String × Value) → Except PyError Response
  streamFn : List (String × Value) → StreamSpec

/-- The facade state: the stored credential and the transport handle,
both set once in `__init__` and never reassigned. -/
structure ClaudeClient where
  api_key : String
  client : Anthropic

/-- The configuration error raised by `__init__` (a `ValueError`). -/
structure ConfigError where
  msg : String
  deriving DecidableEq, Repr

/-- Observable outcome of running `ClaudeClient.__init__`: the result and
the side effects on the environment and the transport. -/
structure InitTrace where
  outcome : Except ConfigError ClaudeClient
  envConsulted : Bool
  envWrites : List (String × String)
  transportAcquired : Bool
  transportCalls : Nat

/-- Embedding of `ClaudeClient.__init__` (src/claude_client.py:14-27).
`self.api_key = api_key or os.getenv("ANTHROPIC_API_KEY")` consults the
environment only when `api_key` is falsy (Python `or` short-circuits);
a falsy resolved key raises `ValueError` before `Anthropic(...)` runs.
The body performs no environment write and no transport call. -/
def initClient (api_key : Option String) (env : String → Option String)
    (createFn : List (String × Value) → Except PyError Response)
    (streamFn : List (String × Value) → StreamSpec) : InitTrace :=
  let consulted := !truthyOpt api_key
  let resolved : Option String :=
    if truthyOpt api_key then api_key else env "ANTHROPIC_API_KEY"
  if truthyOpt resolved then
    { outcome := .ok
        { api_key := resolved.getD ""
          client :=
            { api_key := resolved.getD "", createFn := createFn,
              streamFn := streamFn } }
      envConsulted := consulted
      envWrites := []
      transportAcquired := true
      transportCalls := 0 }
  else
    { outcome := .error
        { msg := "API key required. Set ANTHROPIC_API_KEY environment variable or pass api_key parameter." }
      envConsulted := consulted
      envWrites := []
      transportAcquired := false
      transportCalls := 0 }

/-- The request dict built by `ClaudeClient.chat` (src/claude_client.py:52-63):
a fresh one-element conversation `[\x7b"role": "user", "content": message\x7d]`,
the literal `\x7bmodel, messages, max_tokens, temperature, **kwargs\x7d`, then
`params["system"] = system_prompt` when the system prompt is truthy. -/
def chatParams (message model : String) (system_prompt : Option String)
    (max_tokens : Nat) (temperature : ℚ)
    (kwargs : List (String × Value)) : List (String × Value) :=
  let messages : List Turn := [{ role := "user", content := message }]
  let params := dictUpdate
    [("model", .s model), ("messages", .msgs messages),
     ("max_tokens", .n max_tokens), ("temperature", .q temperature)]
    kwargs
  if truthyOpt system_prompt then
    dictInsert params "system" (.s (system_prompt.getD ""))
  else params

/-- The request dict built by `ClaudeClient.chat_stream`
(src/claude_client.py:91-103): as `chatParams` with `"stream": True`
before the `**kwargs` merge. -/
def chatStreamParams (message model : String) (system_prompt : Option String)
    (max_tokens : Nat) (temperature : ℚ)
    (kwargs : List (String × Value)) : List (String × Value) :=
  let messages : List Turn := [{ role := "user", content := message }]
  let params := dictUpdate
    [("model", .s model), ("messages", .msgs messages),
     ("max_tokens", .n max_tokens), ("temperature", .q temperature),
     ("stream", .b true)]
    kwargs
  if truthyOpt system_prompt then
    dictInsert params "system" (.s (system_prompt.getD ""))
  else params

/-- The request dict built by `ClaudeClient.chat_with_history`
(src/claude_client.py:132-141): the caller-supplied message list is put
in the dict literal unchanged. -/
def historyParams (messages : List Turn) (model : String)
    (system_prompt : Option String) (max_tokens : Nat) (temperature : ℚ)
    (kwargs : List (String × Value)) : List (String × Value) :=
  let params := dictUpdate
    [("model", .s model), ("messages", .msgs messages),
     ("max_tokens", .n max_tokens), ("temperature", .q temperature)]
    kwargs
  if truthyOpt system_prompt then
    dictInsert params "system" (.s (system_prompt.getD ""))
  else params

/-- Extraction `response.content[0].text` (src/claude_client.py:66,144):
raises `IndexError` on an empty content list. -/
def firstBlockText (r : Response) : Except PyError String :=
  match r.content with
  | [] => .error .indexError
  | blk :: _ => .ok blk.text

/-- Embedding of `ClaudeClient.chat` (src/claude_client.py:29-66): build
the request dict, one synchronous transport call, return the first
content block's text; any transport error propagates unchanged. -/
def ClaudeClient.chat (self : ClaudeClient) (message model : String)
    (system_prompt : Option String) (max_tokens : Nat) (temperature : ℚ)
    (kwargs : List (String × Value)) : Except PyError String :=
  match self.client.createFn
      (chatParams message model system_prompt max_tokens temperature kwargs) with
  | .error e => .error e
  | .ok r => firstBlockText r

/-- Embedding of `ClaudeClient.chat_with_history`
(src/claude_client.py:109-144): identical to `chat` except the caller
supplies the full message list. -/
def ClaudeClient.chat_with_history (self : ClaudeClient)
    (messages : List Turn) (model : String) (system_prompt : Option String)
    (max_tokens : Nat) (temperature : ℚ)
    (kwargs : List (String × Value)) : Except PyError String :=
  match self.client.createFn
      (historyParams messages model system_prompt max_tokens temperature kwargs) with
  | .error e => .error e
  | .ok r => firstBlockText r

/-- An observable event of one `chat_stream` iteration: a yielded text
fragment, the release of the stream resource (the `with` statement's
exit), or an exception propagating to the consumer. -/
inductive StreamEvent where
  | yield (fragment : String)
  | release
  | raiseErr (e : PyError)
  deriving DecidableEq, Repr

/-- Embedding of the generator `ClaudeClient.chat_stream`
(src/claude_client.py:68-107) as the event trace one call produces.
`limit = none`: the caller iterates to exhaustion — every fragment is
yielded, the `with` block releases the stream, then a pending mid-stream
error propagates.  `limit = some k`: the caller closes the iterator after
consuming `k` fragments (early abandonment) — generator cleanup runs the
`with` exit, releasing the stream, and no further fragment or error is
observed. -/
def ClaudeClient.chat_stream (self : ClaudeClient) (message model : String)
    (system_prompt : Option String) (max_tokens : Nat) (temperature : ℚ)
    (kwargs : List (String × Value)) (limit : Option Nat) :
    List StreamEvent :=
  let spec := self.client.streamFn
    (chatStreamParams message model system_prompt max_tokens temperature kwargs)
  match limit with
  | none =>
    spec.fragments.map .yield ++ [.release] ++
      (match spec.err with
       | none => []
       | some e => [.raiseErr e])
  | some k => (spec.fragments.take k).map .yield ++ [.release]

/-- Embedding of `ClaudeClient.get_available_models`
(src/claude_client.py:146-159): a hardcoded literal, independent of
`self` and of the transport. -/
def ClaudeClient.get_available_models (_self : ClaudeClient) : List String :=
  ["claude-3-5-sonnet-20241022",
   "claude-3-5-haiku-20241022",
   "claude-3-opus-20240229",
   "claude-3-sonnet-20240229",
   "claude-3-haiku-20240307"]

/-- The facade state after any of the chat methods returns or raises: the
method bodies (src/claude_client.py:29-144) contain no assignment to
`self.api_key` or `self.client`, so the state is unchanged. -/
def stateAfterCall (self : ClaudeClient) : ClaudeClient := self

/-- The fragments a consumer receives from an event trace. -/
def yieldedTexts (evs : List StreamEvent) : List String :=
  evs.filterMap (fun ev =>
    match ev with
    | .yield f => some f
    | _ => none)

/-- The errors a consumer observes in an event trace. -/
def raisedErrors (evs : List StreamEvent) : List PyError :=
  evs.filterMap (fun ev =>
    match ev with
    | .raiseErr e => some e
    | _ => none)

/-- The credential stored on a successfully constructed facade. -/
def storedKey (t : InitTrace) : Option String :=
  match t.outcome with
  | .ok c => some c.api_key
  | .error _ => none

/-- The credential the acquired transport handle was bound to. -/
def transportKey (t : InitTrace) : Option String :=
  match t.outcome with
  | .ok c => some c.client.api_key
  | .error _ => none

/-! ### Lemmas about the dict embedding -/

theorem find_map_replace_pos (d : List (String × Value)) (k : String)
    (v : Value) (h : hasKey d k = true) :
    (d.map (fun p => if p.1 == k then (k, v) else p)).find?
      (fun p => p.1 == k) = some (k, v) := by
  induction d with
  | nil => simp [hasKey] at h
  | cons a as ih =>
    cases ha : a.1 == k with
    | true =>
      simp only [List.map_cons, ha, if_pos, List.find?]
      rw [show ((k : String) == k) = true by simp]
    | false =>
      have h' : hasKey as k = true := by
        simp only [hasKey, List.any_cons, Bool.or_eq_true] at h
        rcases h with h | h
        · rw [ha] at h
          exact absurd h (by simp)
        · exact h
      simp only [List.map_cons, ha, Bool.false_eq_true, not_false_iff,
        if_neg, List.find?]
      exact ih h'

theorem find_map_replace_ne (d : List (String × Value)) (k k' : String)
    (v : Value) (hne : k' ≠ k) :
    (d.map (fun p => if p.1 == k then (k, v) else p)).find?
      (fun p => p.1 == k') = d.find? (fun p => p.1 == k') := by
  induction d with
  | nil => rfl
  | cons a as ih =>
    cases ha : a.1 == k with
    | true =>
      have ha' : a.1 = k := by simpa using ha
      have h1 : ((k : String) == k') = false := by
        simp only [beq_eq_false_iff_ne, ne_eq]
        exact fun hc => hne hc.symm
      have h2 : (a.1 == k') = false := by
        rw [ha']
        exact h1
      simp only [List.map_cons, ha, if_pos, List.find?]
      rw [h1, h2]
      exact ih
    | false =>
      simp only [List.map_cons, ha, Bool.false_eq_true, not_false_iff,
        if_neg, List.find?]
      cases ha' : a.1 == k'
      · exact ih
      · rfl

theorem dictGet_insert_self (d : List (String × Value)) (k : String)
    (v : Value) : dictGet (dictInsert d k v) k = some v := by
  unfold dictInsert dictGet
  by_cases h : hasKey d k = true
  · rw [if_pos h, find_map_replace_pos d k v h]
    rfl
  · rw [if_neg h, List.find?_append]
    have hd : d.find? (fun p => p.1 == k) = none := by
      rw [List.find?_eq_none]
      intro p hp
      simp only [hasKey, List.any_eq_true, not_exists, not_and] at h
      exact fun hc => h p hp hc
    rw [hd]
    simp only [List.find?, Option.none_or]
    rw [show ((k : String) == k) = true by simp]
    rfl

theorem dictGet_insert_ne (d : List (String × Value)) (k k' : String)
    (v : Value) (hne : k' ≠ k) :
    dictGet (dictInsert d k v) k' = dictGet d k' := by
  unfold dictInsert dictGet
  by_cases h : hasKey d k = true
  · rw [if_pos h, find_map_replace_ne d k k' v hne]
  · rw [if_neg h, List.find?_append]
    have h1 : ((k : String) == k') = false := by
      simp only [beq_eq_false_iff_ne, ne_eq]
      exact fun hc => hne hc.symm
    simp only [List.find?, h1]
    cases hd : d.find? (fun p => p.1 == k') <;> rfl

theorem dictGet_update_not_mem (d kvs : List (String × Value)) (k : String)
    (hk : ∀ p ∈ kvs, p.1 ≠ k) :
    dictGet (dictUpdate d kvs) k = dictGet d k := by
  induction kvs generalizing d with
  | nil => rfl
  | cons a as ih =>
    show dictGet (dictUpdate (dictInsert d a.1 a.2) as) k = dictGet d k
    rw [ih (dictInsert d a.1 a.2) (fun p hp => hk p (List.mem_cons_of_mem a hp))]
    exact dictGet_insert_ne d a.1 k a.2
      (fun hc => hk a (List.mem_cons_self a as) hc.symm)

theorem dictGet_update_mem (d kvs : List (String × Value)) (k : String)
    (v : Value) (hnd : (kvs.map Prod.fst).Nodup)
    (hget : dictGet kvs k = some v) :
    dictGet (dictUpdate d kvs) k = some v := by
  induction kvs generalizing d with
  | nil => simp [dictGet] at hget
  | cons a as ih =>
    show dictGet (dictUpdate (dictInsert d a.1 a.2) as) k = some v
    cases ha : a.1 == k with
    | true =>
      have ha' : a.1 = k := by simpa using ha
      have hv : a.2 = v := by
        unfold dictGet at hget
        simp only [List.find?, ha] at hget
        simpa using hget
      have hrest : ∀ p ∈ as, p.1 ≠ k := by
        intro p hp hc
        simp only [List.map_cons, List.nodup_cons] at hnd
        exact hnd.1 (by rw [ha', ← hc]; exact List.mem_map_of_mem Prod.fst hp)
      rw [dictGet_update_not_mem (dictInsert d a.1 a.2) as k hrest, ha', hv]
      exact dictGet_insert_self d k v
    | false =>
      have hget' : dictGet as k = some v := by
        unfold dictGet at hget ⊢
        simp only [List.find?, ha] at hget
        exact hget
      have hnd' : (as.map Prod.fst).Nodup := by
        simp only [List.map_cons, List.nodup_cons] at hnd
        exact hnd.2
      exact ih (dictInsert d a.1 a.2) hnd' hget'

theorem dictGet_eq_none_of_not_mem (d : List (String × Value)) (k : String)
    (hk : ∀ p ∈ d, p.1 ≠ k) : dictGet d k = none := by
  unfold dictGet
  rw [List.find?_eq_none.mpr]
  · rfl
  · intro p hp
    simpa using hk p hp

theorem dictGet_update_of_base_not_mem (d kvs : List (String × Value))
    (k : String) (hnd : (kvs.map Prod.fst).Nodup)
    (hd : ∀ p ∈ d, p.1 ≠ k) :
    dictGet (dictUpdate d kvs) k = dictGet kvs k := by
  cases hget : dictGet kvs k with
  | some v => exact dictGet_update_mem d kvs k v hnd hget
  | none =>
    have hnone : ∀ p ∈ kvs, p.1 ≠ k := by
      intro p hp hc
      unfold dictGet at hget
      rw [Option.map_eq_none'] at hget
      rw [List.find?_eq_none] at hget
      exact hget p hp (by simpa using hc)
    rw [dictGet_update_not_mem d kvs k hnone]
    exact dictGet_eq_none_of_not_mem d k hd

/-! ### Stub transports and environments used to instantiate the theorems -/

/-- A fixed vendor response whose first (only) content block is "pong". -/
def pongResponse : Response := { content := [{ text := "pong" }] }

/-- A synchronous stub call that always answers `pongResponse`. -/
def stubCreate : List (String × Value) → Except PyError Response :=
  fun _ => .ok pongResponse

/-- A streaming stub call that yields "a", "b", "c" and ends cleanly. -/
def stubStream : List (String × Value) → StreamSpec :=
  fun _ => { fragments := ["a", "b", "c"], err := none }

/-- A streaming stub call that yields "a" and then raises mid-stream. -/
def stubStreamErr : List (String × Value) → StreamSpec :=
  fun _ => { fragments := ["a"], err := some (.transportError "boom") }

/-- A synchronous stub call that always raises. -/
def stubCreateErr : List (String × Value) → Except PyError Response :=
  fun _ => .error (.transportError "401 authentication_error")

/-- An environment in which the designated variable is set. -/
def envWithKey : String → Option String :=
  fun v => if v == "ANTHROPIC_API_KEY" then some "env-key" else none

/-- An environment with no variable set. -/
def envEmpty : String → Option String := fun _ => none

/-- A facade over the pong stub transport. -/
def pongClient : ClaudeClient :=
  { api_key := "sk-test"
    client :=
      { api_key := "sk-test", createFn := stubCreate, streamFn := stubStream } }

/-- A facade whose transport raises on both capabilities. -/
def errClient : ClaudeClient :=
  { api_key := "sk-test"
    client :=
      { api_key := "sk-test", createFn := stubCreateErr,
        streamFn := stubStreamErr } }

/-! ### The claims -/

/-- C1: in `chat`, `chat_stream` and `chat_with_history`, the
caller-supplied extra options are merged into the request dict last
(src/claude_client.py:54-60, 93-100, 132-138), so on the keys "model",
"max_tokens" and "temperature" the request carries the extras' value,
overriding the explicitly named parameter's value.  The `Nodup`
hypothesis states that the extras form a Python dict (distinct keys). -/
theorem extras_override_named_params (message model : String)
    (msgs : List Turn) (system_prompt : Option String) (max_tokens : Nat)
    (temperature : ℚ) (kwargs : List (String × Value)) (k : String)
    (v : Value) (hnd : (kwargs.map Prod.fst).Nodup)
    (hk : k = "model" ∨ k = "max_tokens" ∨ k = "temperature")
    (hv : dictGet kwargs k = some v) :
    dictGet (chatParams message model system_prompt max_tokens temperature
      kwargs) k = some v ∧
    dictGet (chatStreamParams message model system_prompt max_tokens
      temperature kwargs) k = some v ∧
    dictGet (historyParams msgs model system_prompt max_tokens temperature
      kwargs) k = some v := by
  have hks : k ≠ "system" := by
    rcases hk with rfl | rfl | rfl <;> decide
  refine ⟨?_, ?_, ?_⟩
  · unfold chatParams
    by_cases h : truthyOpt system_prompt = true
    · rw [if_pos h, dictGet_insert_ne _ _ _ _ hks]
      exact dictGet_update_mem _ kwargs k v hnd hv
    · rw [if_neg h]
      exact dictGet_update_mem _ kwargs k v hnd hv
  · unfold chatStreamParams
    by_cases h : truthyOpt system_prompt = true
    · rw [if_pos h, dictGet_insert_ne _ _ _ _ hks]
      exact dictGet_update_mem _ kwargs k v hnd hv
    · rw [if_neg h]
      exact dictGet_update_mem _ kwargs k v hnd hv
  · unfold historyParams
    by_cases h : truthyOpt system_prompt = true
    · rw [if_pos h, dictGet_insert_ne _ _ _ _ hks]
      exact dictGet_update_mem _ kwargs k v hnd hv
    · rw [if_neg h]
      exact dictGet_update_mem _ kwargs k v hnd hv

/-- Witness for C1: an extras dict carrying "model" wins over the
explicit model argument in all three request builders. -/
theorem extras_override_named_params_witness :
    ([("model", Value.s "claude-extra")].map Prod.fst).Nodup ∧
    dictGet [("model", Value.s "claude-extra")] "model"
      = some (Value.s "claude-extra") ∧
    dictGet (chatParams "hi" "claude-3-5-sonnet-20241022" none 1024 1
      [("model", Value.s "claude-extra")]) "model"
      = some (Value.s "claude-extra") ∧
    dictGet (chatStreamParams "hi" "claude-3-5-sonnet-20241022" none 1024 1
      [("model", Value.s "claude-extra")]) "model"
      = some (Value.s "claude-extra") ∧
    dictGet (historyParams [⟨"user", "hi"⟩] "claude-3-5-sonnet-20241022"
      none 1024 1 [("model", Value.s "claude-extra")]) "model"
      = some (Value.s "claude-extra") := by
  have h := extras_override_named_params "hi" "claude-3-5-sonnet-20241022"
    [⟨"user", "hi"⟩] none 1024 1 [("model", Value.s "claude-extra")]
    "model" (Value.s "claude-extra") (by decide) (Or.inl rfl) (by decide)
  exact ⟨by decide, by decide, h.1, h.2.1, h.2.2⟩

/-- C2: `chat` (src/claude_client.py:29-66) builds a one-element
conversation of a single user turn, and returns the text of the first
content block of the transport's reply; in particular against a stub
transport that always answers "pong" it returns exactly "pong". -/
theorem chat_single_turn_contract (self : ClaudeClient)
    (message model : String) (system_prompt : Option String)
    (max_tokens : Nat) (temperature : ℚ) :
    ((∀ p, ∃ r, self.client.createFn p = Except.ok r ∧
        ∃ b t, r.content = b :: t ∧ b.text = "pong") →
      self.chat message model system_prompt max_tokens temperature []
        = Except.ok "pong") ∧
    dictGet (chatParams message model system_prompt max_tokens temperature
      []) "messages" = some (Value.msgs [⟨"user", message⟩]) ∧
    (∀ r b t,
      self.client.createFn (chatParams message model system_prompt
        max_tokens temperature []) = Except.ok r →
      r.content = b :: t →
      self.chat message model system_prompt max_tokens temperature []
        = Except.ok b.text) := by
  refine ⟨?_, ?_, ?_⟩
  · intro hpong
    obtain ⟨r, hr, b, t, hc, hb⟩ := hpong
      (chatParams message model system_prompt max_tokens temperature [])
    simp only [ClaudeClient.chat, hr, firstBlockText, hc, hb]
  · unfold chatParams
    by_cases h : truthyOpt system_prompt = true
    · rw [if_pos h,
        dictGet_insert_ne _ _ _ _ (by decide : "messages" ≠ "system")]
      simp [dictUpdate, dictGet, List.find?]
    · rw [if_neg h]
      simp [dictUpdate, dictGet, List.find?]
  · intro r b t hr hc
    simp only [ClaudeClient.chat, hr, firstBlockText, hc]

/-- Witness for C2: against `pongClient` the call returns "pong", and the
request's "messages" entry is the single user turn. -/
theorem chat_single_turn_contract_witness :
    pongClient.chat "hello" "claude-3-5-sonnet-20241022" none 1024 1 []
      = Except.ok "pong" ∧
    dictGet (chatParams "hello" "claude-3-5-sonnet-20241022" none 1024 1
      []) "messages" = some (Value.msgs [⟨"user", "hello"⟩]) :=
  ⟨(chat_single_turn_contract pongClient "hello"
      "claude-3-5-sonnet-20241022" none 1024 1).1
      (fun _ => ⟨pongResponse, rfl, ⟨"pong"⟩, [], rfl, rfl⟩),
   (chat_single_turn_contract pongClient "hello"
      "claude-3-5-sonnet-20241022" none 1024 1).2.1⟩

/-- C3 counterexample: the claim quantifies over every explicit credential
argument string, but for the empty string the source's
`api_key or os.getenv("ANTHROPIC_API_KEY")` (src/claude_client.py:21) is
falsy on the left, so the environment IS consulted, the stored credential
is the environment's value rather than the argument, and construction
differs between two runs that differ only in the variable's value. -/
theorem explicit_empty_key_consults_env :
    (initClient (some "") envWithKey stubCreate stubStream).envConsulted
      = true ∧
    storedKey (initClient (some "") envWithKey stubCreate stubStream)
      = some "env-key" ∧
    transportKey (initClient (some "") envWithKey stubCreate stubStream)
      = some "env-key" ∧
    storedKey (initClient (some "") envEmpty stubCreate stubStream)
      = none := by
  refine ⟨rfl, rfl, rfl, rfl⟩

/-- C3 (amended): for every NON-EMPTY explicit credential argument,
construction never consults the environment variable, stores and hands to
the transport exactly the argument, and behaves identically across any
two runs that differ only in the environment (src/claude_client.py:21-27;
Python `or` short-circuits on a truthy left operand). -/
theorem explicit_nonempty_key_ignores_env (k : String)
    (env env' : String → Option String)
    (cF : List (String × Value) → Except PyError Response)
    (sF : List (String × Value) → StreamSpec) (hk : k ≠ "") :
    initClient (some k) env cF sF = initClient (some k) env' cF sF ∧
    (initClient (some k) env cF sF).envConsulted = false ∧
    (initClient (some k) env cF sF).outcome = .ok
      { api_key := k
        client := { api_key := k, createFn := cF, streamFn := sF } } := by
  have ht : truthyOpt (some k) = true := by
    simp only [truthyOpt]
    exact bne_iff_ne.mpr hk
  refine ⟨?_, ?_, ?_⟩ <;> simp [initClient, ht]

/-- Witness for C3 (amended): a concrete non-empty key, one run with the
environment variable set and one without. -/
theorem explicit_nonempty_key_ignores_env_witness :
    ("sk-test" : String) ≠ "" ∧
    initClient (some "sk-test") envWithKey stubCreate stubStream
      = initClient (some "sk-test") envEmpty stubCreate stubStream ∧
    (initClient (some "sk-test") envWithKey stubCreate stubStream).envConsulted
      = false :=
  ⟨by decide,
   (explicit_nonempty_key_ignores_env "sk-test" envWithKey envEmpty
      stubCreate stubStream (by decide)).1,
   (explicit_nonempty_key_ignores_env "sk-test" envWithKey envEmpty
      stubCreate stubStream (by decide)).2.1⟩

/-- C4: constructing with no credential argument while the designated
environment variable is unset or empty raises the configuration error
synchronously (src/claude_client.py:22-26), acquires no transport handle
(`Anthropic(...)` on line 27 is never reached), issues no transport call
and performs no environment write. -/
theorem missing_key_raises_config_error
    (env : String → Option String)
    (cF : List (String × Value) → Except PyError Response)
    (sF : List (String × Value) → StreamSpec)
    (h : truthyOpt (env "ANTHROPIC_API_KEY") = false) :
    (initClient none env cF sF).outcome = .error
      { msg := "API key required. Set ANTHROPIC_API_KEY environment variable or pass api_key parameter." } ∧
    (initClient none env cF sF).transportAcquired = false ∧
    (initClient none env cF sF).transportCalls = 0 ∧
    (initClient none env cF sF).envWrites = [] := by
  have h0 : truthyOpt (none : Option String) = false := rfl
  refine ⟨?_, ?_, ?_, ?_⟩ <;> simp [initClient, h0, h]

/-- Witness for C4: a run with the environment variable unset. -/
theorem missing_key_raises_config_error_witness :
    truthyOpt (envEmpty "ANTHROPIC_API_KEY") = false ∧
    (initClient none envEmpty stubCreate stubStream).outcome = .error
      { msg := "API key required. Set ANTHROPIC_API_KEY environment variable or pass api_key parameter." } ∧
    (initClient none envEmpty stubCreate stubStream).transportAcquired
      = false :=
  ⟨rfl,
   (missing_key_raises_config_error envEmpty stubCreate stubStream rfl).1,
   (missing_key_raises_config_error envEmpty stubCreate stubStream
      rfl).2.1⟩

/-- C5: `chat_with_history` (src/claude_client.py:109-144) places the
caller's turn sequence, unmodified and in order, as the "messages" entry
of the request dict, synthesizes no additional turns, and returns the
text of the first content block of the reply, exactly as `chat` does. -/
theorem chat_with_history_contract (self : ClaudeClient)
    (msgs : List Turn) (model : String) (system_prompt : Option String)
    (max_tokens : Nat) (temperature : ℚ) :
    dictGet (historyParams msgs model system_prompt max_tokens temperature
      []) "messages" = some (Value.msgs msgs) ∧
    (∀ r b t,
      self.client.createFn (historyParams msgs model system_prompt
        max_tokens temperature []) = Except.ok r →
      r.content = b :: t →
      self.chat_with_history msgs model system_prompt max_tokens
        temperature [] = Except.ok b.text) := by
  refine ⟨?_, ?_⟩
  · unfold historyParams
    by_cases h : truthyOpt system_prompt = true
    · rw [if_pos h,
        dictGet_insert_ne _ _ _ _ (by decide : "messages" ≠ "system")]
      simp [dictUpdate, dictGet, List.find?]
    · rw [if_neg h]
      simp [dictUpdate, dictGet, List.find?]
  · intro r b t hr hc
    simp only [ClaudeClient.chat_with_history, hr, firstBlockText, hc]

/-- Witness for C5: the spec's three-turn history is passed through
verbatim, and against `pongClient` the reply text is returned. -/
theorem chat_with_history_contract_witness :
    dictGet (historyParams
      [⟨"user", "My name is Alice."⟩,
       ⟨"assistant", "Nice to meet you, Alice!"⟩,
       ⟨"user", "What is my name?"⟩]
      "claude-3-5-sonnet-20241022" none 1024 1 []) "messages"
      = some (Value.msgs
        [⟨"user", "My name is Alice."⟩,
         ⟨"assistant", "Nice to meet you, Alice!"⟩,
         ⟨"user", "What is my name?"⟩]) ∧
    pongClient.chat_with_history
      [⟨"user", "My name is Alice."⟩,
       ⟨"assistant", "Nice to meet you, Alice!"⟩,
       ⟨"user", "What is my name?"⟩]
      "claude-3-5-sonnet-20241022" none 1024 1 [] = Except.ok "pong" :=
  ⟨(chat_with_history_contract pongClient
      [⟨"user", "My name is Alice."⟩,
       ⟨"assistant", "Nice to meet you, Alice!"⟩,
       ⟨"user", "What is my name?"⟩]
      "claude-3-5-sonnet-20241022" none 1024 1).1,
   (chat_with_history_contract pongClient
      [⟨"user", "My name is Alice."⟩,
       ⟨"assistant", "Nice to meet you, Alice!"⟩,
       ⟨"user", "What is my name?"⟩]
      "claude-3-5-sonnet-20241022" none 1024 1).2 pongResponse ⟨"pong"⟩ []
      rfl rfl⟩

theorem yieldedTexts_map_yield (l : List String) :
    yieldedTexts (l.map .yield) = l := by
  induction l with
  | nil => rfl
  | cons a as ih =>
    simp only [List.map_cons, yieldedTexts, List.filterMap_cons]
    unfold yieldedTexts at ih
    rw [ih]

theorem yieldedTexts_append (l₁ l₂ : List StreamEvent) :
    yieldedTexts (l₁ ++ l₂) = yieldedTexts l₁ ++ yieldedTexts l₂ := by
  unfold yieldedTexts
  exact List.filterMap_append l₁ l₂ _

theorem raisedErrors_map_yield (l : List String) :
    raisedErrors (l.map .yield) = [] := by
  induction l with
  | nil => rfl
  | cons a as ih =>
    simp only [List.map_cons, raisedErrors, List.filterMap_cons]
    unfold raisedErrors at ih
    rw [ih]

theorem raisedErrors_append (l₁ l₂ : List StreamEvent) :
    raisedErrors (l₁ ++ l₂) = raisedErrors l₁ ++ raisedErrors l₂ := by
  unfold raisedErrors
  exact List.filterMap_append l₁ l₂ _

/-- C6: when the transport's stream yields a finite fragment sequence and
ends cleanly, full iteration of `chat_stream` (src/claude_client.py:105-107)
yields exactly those fragments in order, raises nothing, and a second
fresh call with the same arguments reproduces the identical event trace —
the facade keeps no cross-call state (no attribute of `self` is written
by any chat method), so nothing is memoized between calls. -/
theorem chat_stream_yields_exact_fragments (self : ClaudeClient)
    (message model : String) (system_prompt : Option String)
    (max_tokens : Nat) (temperature : ℚ) (kwargs : List (String × Value))
    (h : (self.client.streamFn (chatStreamParams message model
      system_prompt max_tokens temperature kwargs)).err = none) :
    yieldedTexts (self.chat_stream message model system_prompt max_tokens
      temperature kwargs none)
      = (self.client.streamFn (chatStreamParams message model
        system_prompt max_tokens temperature kwargs)).fragments ∧
    raisedErrors (self.chat_stream message model system_prompt max_tokens
      temperature kwargs none) = [] ∧
    (∀ t₁ t₂,
      t₁ = self.chat_stream message model system_prompt max_tokens
        temperature kwargs none →
      t₂ = self.chat_stream message model system_prompt max_tokens
        temperature kwargs none →
      t₁ = t₂) := by
  refine ⟨?_, ?_, ?_⟩
  · simp only [ClaudeClient.chat_stream, h]
    rw [yieldedTexts_append, yieldedTexts_append, yieldedTexts_map_yield]
    simp [yieldedTexts]
  · simp only [ClaudeClient.chat_stream, h]
    rw [raisedErrors_append, raisedErrors_append, raisedErrors_map_yield]
    simp [raisedErrors]
  · intro t₁ t₂ h₁ h₂
    rw [h₁, h₂]

/-- Witness for C6: the spec's "a","b","c" stub stream. -/
theorem chat_stream_yields_exact_fragments_witness :
    (pongClient.client.streamFn (chatStreamParams "hi"
      "claude-3-5-sonnet-20241022" none 1024 1 [])).err = none ∧
    yieldedTexts (pongClient.chat_stream "hi" "claude-3-5-sonnet-20241022"
      none 1024 1 [] none) = ["a", "b", "c"] :=
  ⟨rfl,
   (chat_stream_yields_exact_fragments pongClient "hi"
      "claude-3-5-sonnet-20241022" none 1024 1 [] rfl).1⟩

/-- C7: if the transport raises mid-stream, full iteration of
`chat_stream` releases the stream resource (the `with` statement's exit,
src/claude_client.py:105) and then propagates that exact error to the
iterating caller; and on every exit path — exhaustion, early abandonment
after any number of fragments, or error — the release event occurs. -/
theorem chat_stream_error_propagates_and_releases (self : ClaudeClient)
    (message model : String) (system_prompt : Option String)
    (max_tokens : Nat) (temperature : ℚ)
    (kwargs : List (String × Value)) :
    (∀ e, (self.client.streamFn (chatStreamParams message model
        system_prompt max_tokens temperature kwargs)).err = some e →
      self.chat_stream message model system_prompt max_tokens temperature
        kwargs none
        = ((self.client.streamFn (chatStreamParams message model
            system_prompt max_tokens temperature kwargs)).fragments.map
            .yield) ++ [.release, .raiseErr e]) ∧
    (∀ limit, StreamEvent.release ∈ self.chat_stream message model
      system_prompt max_tokens temperature kwargs limit) := by
  refine ⟨?_, ?_⟩
  · intro e he
    simp only [ClaudeClient.chat_stream, he]
    rw [List.append_assoc]
    rfl
  · intro limit
    cases limit with
    | none =>
      simp only [ClaudeClient.chat_stream]
      simp [List.mem_append]
    | some k =>
      simp only [ClaudeClient.chat_stream]
      simp [List.mem_append]

/-- Witness for C7: a stub stream that yields "a" then raises; the trace
is the yield, the release, then the propagated error; a caller that
abandons immediately still sees the release. -/
theorem chat_stream_error_propagates_and_releases_witness :
    (errClient.client.streamFn (chatStreamParams "hi"
      "claude-3-5-sonnet-20241022" none 1024 1 [])).err
      = some (PyError.transportError "boom") ∧
    errClient.chat_stream "hi" "claude-3-5-sonnet-20241022" none 1024 1 []
      none
      = [.yield "a", .release, .raiseErr (PyError.transportError "boom")] ∧
    StreamEvent.release ∈ errClient.chat_stream "hi"
      "claude-3-5-sonnet-20241022" none 1024 1 [] (some 0) :=
  ⟨rfl,
   (chat_stream_error_propagates_and_releases errClient "hi"
      "claude-3-5-sonnet-20241022" none 1024 1 []).1
      (PyError.transportError "boom") rfl,
   (chat_stream_error_propagates_and_releases errClient "hi"
      "claude-3-5-sonnet-20241022" none 1024 1 []).2 (some 0)⟩

/-- C8: `get_available_models` (src/claude_client.py:146-159) returns the
same fixed non-empty ordered list of model identifiers on every call and
for every facade instance, whatever its transport: it is a hardcoded
literal that never invokes the transport. -/
theorem get_available_models_fixed (c c' : ClaudeClient) :
    c.get_available_models =
      ["claude-3-5-sonnet-20241022",
       "claude-3-5-haiku-20241022",
       "claude-3-opus-20240229",
       "claude-3-sonnet-20240229",
       "claude-3-haiku-20240307"] ∧
    c.get_available_models ≠ [] ∧
    c.get_available_models = c'.get_available_models := by
  exact ⟨rfl, by simp [ClaudeClient.get_available_models], rfl⟩

/-- C9: every error the transport raises propagates unchanged through
`chat`, `chat_with_history` and `chat_stream` — no catch, retry,
transformation or swallowing appears in any method body
(src/claude_client.py:29-144) — and the facade state (stored credential
and transport handle) is identical before and after the failed call,
since no chat method assigns any attribute of `self`. -/
theorem transport_errors_propagate_unchanged (self : ClaudeClient)
    (message model : String) (msgs : List Turn)
    (system_prompt : Option String) (max_tokens : Nat) (temperature : ℚ)
    (kwargs : List (String × Value)) (e : PyError) (frags : List String) :
    (self.client.createFn (chatParams message model system_prompt
        max_tokens temperature kwargs) = Except.error e →
      self.chat message model system_prompt max_tokens temperature kwargs
        = Except.error e) ∧
    (self.client.createFn (historyParams msgs model system_prompt
        max_tokens temperature kwargs) = Except.error e →
      self.chat_with_history msgs model system_prompt max_tokens
        temperature kwargs = Except.error e) ∧
    (self.client.streamFn (chatStreamParams message model system_prompt
        max_tokens temperature kwargs) = ⟨frags, some e⟩ →
      raisedErrors (self.chat_stream message model system_prompt
        max_tokens temperature kwargs none) = [e]) ∧
    stateAfterCall self = self ∧
    (stateAfterCall self).api_key = self.api_key ∧
    (stateAfterCall self).client = self.client := by
  refine ⟨?_, ?_, ?_, rfl, rfl, rfl⟩
  · intro h
    simp only [ClaudeClient.chat, h]
  · intro h
    simp only [ClaudeClient.chat_with_history, h]
  · intro h
    simp only [ClaudeClient.chat_stream, h]
    rw [raisedErrors_append, raisedErrors_append, raisedErrors_map_yield]
    simp [raisedErrors]

/-- Witness for C9: a transport whose synchronous call raises an
authentication error and whose stream raises "boom" mid-stream. -/
theorem transport_errors_propagate_unchanged_witness :
    errClient.client.createFn (chatParams "hi"
      "claude-3-5-sonnet-20241022" none 1024 1 [])
      = Except.error (PyError.transportError "401 authentication_error") ∧
    errClient.chat "hi" "claude-3-5-sonnet-20241022" none 1024 1 []
      = Except.error (PyError.transportError "401 authentication_error") ∧
    errClient.chat_with_history [⟨"user", "hi"⟩]
      "claude-3-5-sonnet-20241022" none 1024 1 []
      = Except.error (PyError.transportError "401 authentication_error") ∧
    raisedErrors (errClient.chat_stream "hi" "claude-3-5-sonnet-20241022"
      none 1024 1 [] none) = [PyError.transportError "boom"] :=
  ⟨rfl,
   (transport_errors_propagate_unchanged errClient "hi"
      "claude-3-5-sonnet-20241022" [⟨"user", "hi"⟩] none 1024 1 []
      (PyError.transportError "401 authentication_error") ["a"]).1 rfl,
   (transport_errors_propagate_unchanged errClient "hi"
      "claude-3-5-sonnet-20241022" [⟨"user", "hi"⟩] none 1024 1 []
      (PyError.transportError "401 authentication_error") ["a"]).2.1 rfl,
   (transport_errors_propagate_unchanged errClient "hi"
      "claude-3-5-sonnet-20241022" [⟨"user", "hi"⟩] none 1024 1 []
      (PyError.transportError "boom") ["a"]).2.2.1 rfl⟩

/-- C10: in all three request builders, a `None` or empty system prompt
adds no "system" entry — the request's "system" entry is exactly whatever
the extras supplied — while a non-empty system prompt is written after
the extras merge (src/claude_client.py:62-63, 102-103, 140-141) and so
overrides any "system" entry of the extras. -/
theorem system_prompt_merge_precedence (message model : String)
    (msgs : List Turn) (system_prompt : Option String) (max_tokens : Nat)
    (temperature : ℚ) (kwargs : List (String × Value))
    (hnd : (kwargs.map Prod.fst).Nodup) :
    (truthyOpt system_prompt = false →
      dictGet (chatParams message model system_prompt max_tokens
        temperature kwargs) "system" = dictGet kwargs "system" ∧
      dictGet (chatStreamParams message model system_prompt max_tokens
        temperature kwargs) "system" = dictGet kwargs "system" ∧
      dictGet (historyParams msgs model system_prompt max_tokens
        temperature kwargs) "system" = dictGet kwargs "system") ∧
    (∀ s, system_prompt = some s → s ≠ "" →
      dictGet (chatParams message model system_prompt max_tokens
        temperature kwargs) "system" = some (Value.s s) ∧
      dictGet (chatStreamParams message model system_prompt max_tokens
        temperature kwargs) "system" = some (Value.s s) ∧
      dictGet (historyParams msgs model system_prompt max_tokens
        temperature kwargs) "system" = some (Value.s s)) := by
  constructor
  · intro hf
    have hf' : ¬ truthyOpt system_prompt = true := by
      rw [hf]
      exact Bool.false_ne_true
    refine ⟨?_, ?_, ?_⟩
    · unfold chatParams
      rw [if_neg hf']
      exact dictGet_update_of_base_not_mem _ kwargs "system" hnd
        (by intro p hp; fin_cases hp <;> simp)
    · unfold chatStreamParams
      rw [if_neg hf']
      exact dictGet_update_of_base_not_mem _ kwargs "system" hnd
        (by intro p hp; fin_cases hp <;> simp)
    · unfold historyParams
      rw [if_neg hf']
      exact dictGet_update_of_base_not_mem _ kwargs "system" hnd
        (by intro p hp; fin_cases hp <;> simp)
  · intro s hs hne
    have ht : truthyOpt system_prompt = true := by
      rw [hs]
      simp only [truthyOpt]
      exact bne_iff_ne.mpr hne
    have hg : system_prompt.getD "" = s := by
      rw [hs]
      rfl
    refine ⟨?_, ?_, ?_⟩
    · unfold chatParams
      rw [if_pos ht, hg]
      exact dictGet_insert_self _ "system" (Value.s s)
    · unfold chatStreamParams
      rw [if_pos ht, hg]
      exact dictGet_insert_self _ "system" (Value.s s)
    · unfold historyParams
      rw [if_pos ht, hg]
      exact dictGet_insert_self _ "system" (Value.s s)

/-- Witness for C10: with no system prompt the extras' "system" entry
survives; with a non-empty system prompt it is overridden. -/
theorem system_prompt_merge_precedence_witness :
    ([("system", Value.s "from-extras")].map Prod.fst).Nodup ∧
    dictGet (chatParams "hi" "claude-3-5-sonnet-20241022" none 1024 1
      [("system", Value.s "from-extras")]) "system"
      = dictGet [("system", Value.s "from-extras")] "system" ∧
    dictGet (chatParams "hi" "claude-3-5-sonnet-20241022"
      (some "You are helpful") 1024 1
      [("system", Value.s "from-extras")]) "system"
      = some (Value.s "You are helpful") :=
  ⟨by decide,
   ((system_prompt_merge_precedence "hi" "claude-3-5-sonnet-20241022"
      [] none 1024 1 [("system", Value.s "from-extras")] (by decide)).1
      rfl).1,
   ((system_prompt_merge_precedence "hi" "claude-3-5-sonnet-20241022"
      [] (some "You are helpful") 1024 1
      [("system", Value.s "from-extras")] (by decide)).2
      "You are helpful" rfl (by decide)).1⟩
